import Mathlib

/-! Verification of the HR report generator model (employee.py / gui.py).
    The employee class hierarchy is embedded as a closed inductive of the
    four instantiable leaf variants over a shared base payload; the
    process-wide identity counter `Employee.id_number` is threaded
    explicitly; validating property setters become functions returning
    `Except`; the GUI's `save_file` / `load_file` become an encoder and a
    CSV-row decoder, with the Python local variable `employee` that
    survives loop iterations modelled explicitly.  Numeric fields are
    modelled as rationals (exact arithmetic; the program never exercises
    binary-float rounding at the values the claims mention). -/

set_option maxRecDepth 4000

namespace HRGen

/-- Role enumeration (`class Role(Enum): CEO = 1; CFO = 2; COO = 3`). -/
inductive Role
  | CEO
  | CFO
  | COO
deriving DecidableEq

/-- Department enumeration (`class Department(Enum)`, members 1..5). -/
inductive Department
  | ACCOUNTING
  | FINANCE
  | HR
  | R_AND_D
  | MACHINING
deriving DecidableEq

/-- `role.value` for Role members. -/
def Role.value : Role → Int
  | .CEO => 1
  | .CFO => 2
  | .COO => 3

/-- `department.value` for Department members. -/
def Department.value : Department → Int
  | .ACCOUNTING => 1
  | .FINANCE => 2
  | .HR => 3
  | .R_AND_D => 4
  | .MACHINING => 5

/-- `role.name` (the Python enum member name, used by `Executive.__repr__`). -/
def Role.ename : Role → String
  | .CEO => "CEO"
  | .CFO => "CFO"
  | .COO => "COO"

/-- `department.name` (used by `Manager.__repr__`). -/
def Department.ename : Department → String
  | .ACCOUNTING => "ACCOUNTING"
  | .FINANCE => "FINANCE"
  | .HR => "HR"
  | .R_AND_D => "R_AND_D"
  | .MACHINING => "MACHINING"

/-- `Role(code)` fused with the membership test `code in [s.value for s in Role]`:
    `some` exactly on the raw integer codes 1..3. -/
def Role.fromCode (n : Int) : Option Role :=
  if n = 1 then some .CEO
  else if n = 2 then some .CFO
  else if n = 3 then some .COO
  else none

/-- `Department(code)` fused with `code in [d.value for d in Department]`:
    `some` exactly on the raw integer codes 1..5. -/
def Department.fromCode (n : Int) : Option Department :=
  if n = 1 then some .ACCOUNTING
  else if n = 2 then some .FINANCE
  else if n = 3 then some .HR
  else if n = 4 then some .R_AND_D
  else if n = 5 then some .MACHINING
  else none

/-- The Python exceptions the model can raise.  Field-validation failures in
    employee.py are `ValueError`s (the spec's `InvalidField`); role and
    department code failures are the custom `InvalidRoleException` /
    `InvalidDepartmentException` (the spec's `InvalidCategory`);
    `indexError` models `row[i]` on a too-short CSV row and `unboundLocal`
    models `print(employee)` reading a never-assigned local in
    `MainWindow.load_file`. -/
inductive PyErr
  | valueError (msg : String)
  | invalidRole (msg : String)
  | invalidDept (msg : String)
  | indexError
  | unboundLocal
deriving DecidableEq

/-- A value passed where Python annotates `role: int` / `department: Department`:
    either a raw integer or an enum member.  A plain-`Enum` member never
    compares equal to its integer `value` in Python, which the membership
    tests in `Executive.__init__` / `Manager.__init__` rely on. -/
inductive PyVal
  | int (n : Int)
  | roleMem (r : Role)
  | deptMem (d : Department)
deriving DecidableEq

/-- Python `str(...)`/f-string rendering of a PyVal, for exception messages. -/
def PyVal.pyStr : PyVal → String
  | .int n => Int.repr n
  | .roleMem r => "Role." ++ r.ename
  | .deptMem d => "Department." ++ d.ename

/-- `startsWithL p l` holds when `p` is an initial segment of `l`
    (character-level helper for the Python substring operator `in`). -/
def startsWithL : List Char → List Char → Bool
  | [], _ => true
  | _ :: _, [] => false
  | p :: ps, c :: cs => p == c && startsWithL ps cs

/-- `containsSub pat hay`: `pat` occurs contiguously inside `hay`
    (the semantics of Python's `pat in hay` on strings). -/
def containsSub (pat : List Char) : List Char → Bool
  | [] => startsWithL pat []
  | c :: t => startsWithL pat (c :: t) || containsSub pat t

/-- Python `pat in s` for strings. -/
def strContains (s pat : String) : Bool :=
  containsSub pat.data s.data

def IMAGE_PLACEHOLDER : String := "./images/placeholder.png"

def REQUIRED_DOMAIN : String := "@acme-machining.com"

/-- The `name` property setter of `Employee`. -/
def nameSet (name : String) : Except PyErr String :=
  if name = "" then .error (.valueError "Name cannot be blank")
  else .ok name

/-- The `email` property setter of `Employee`: rejects the empty string and
    any string not containing the fixed domain substring. -/
def emailSet (email : String) : Except PyErr String :=
  if email = "" then .error (.valueError "Email cannot be blank")
  else if strContains email REQUIRED_DOMAIN then .ok email
  else .error (.valueError "Email must be from @acme-machining.com")

/-- The `image` property setter of `Employee`. -/
def imageSet (image : String) : Except PyErr String :=
  if image = "" then .error (.valueError "Image cannot be empty.")
  else .ok image

/-- The `yearly` property setter of `Salaried`: rejects amounts `< 50000`. -/
def yearlySet (yearly : ℚ) : Except PyErr ℚ :=
  if yearly < 50000 then .error (.valueError "Yearly salary must be over $50,000")
  else .ok yearly

/-- The `hourly_wage` property setter of `Hourly`: rejects rates `< 15` or
    `> 99.99` (the source literal `99.99` is written as the rational
    `mkRat 9999 100`, the exact same value). -/
def hourlyWageSet (hourly_wage : ℚ) : Except PyErr ℚ :=
  if hourly_wage < 15 ∨ hourly_wage > mkRat 9999 100 then
    .error (.valueError "Hourly wage must be between $15 and $99.99 (inclusive)")
  else .ok hourly_wage

deriving instance DecidableEq for Except

/-- Smallest exponent `k ≤ 40` with `d ∣ 10 ^ k`, if any (every value the
    program ever formats is decimal-representable). -/
def pow10Exp (d : Nat) : Option Nat :=
  (List.range 41).find? (fun k => 10 ^ k % d == 0)

/-- Left-pad a digit string with zeros to length `k`. -/
def padZeros (k : Nat) (s : String) : String :=
  if s.length ≥ k then s
  else String.mk (List.replicate (k - s.length) '0') ++ s

/-- Decimal rendering of the non-negative rational `n / d` the way Python's
    `str` renders the corresponding float: an integer gets a trailing
    `.0`, a fraction gets its shortest terminating decimal expansion. -/
def decStrOfNat (n d : Nat) : String :=
  match pow10Exp d with
  | none => Nat.repr n ++ "/" ++ Nat.repr d
  | some 0 => Nat.repr (n / d) ++ ".0"
  | some (k + 1) =>
    let scaled := n * 10 ^ (k + 1) / d
    Nat.repr (scaled / 10 ^ (k + 1)) ++ "." ++
      padZeros (k + 1) (Nat.repr (scaled % 10 ^ (k + 1)))

/-- Python `str(x)` for the float field values interpolated by the
    `__repr__` f-strings. -/
def pyStrFloat (q : ℚ) : String :=
  (if q < 0 then "-" else "") ++ decStrOfNat q.num.natAbs q.den

/-- One decimal digit? -/
def isDigitCh (c : Char) : Bool :=
  '0' ≤ c && c ≤ '9'

/-- Value of a digit string. -/
def digitsToNat (l : List Char) : Nat :=
  l.foldl (fun a c => a * 10 + (c.toNat - 48)) 0

/-- Strip leading and trailing ASCII spaces, as Python `float`/`int`
    do with their string argument. -/
def stripSpaces (l : List Char) : List Char :=
  ((l.dropWhile (· == ' ')).reverse.dropWhile (· == ' ')).reverse

/-- Unsigned part of Python `float(s)` on plain decimal notation:
    digits with at most one point, at least one digit in total.  The
    value `a.b` is built as `mkRat (a * 10 ^ |b| + b) (10 ^ |b|)`, which
    is exactly `a + b / 10 ^ |b|`. -/
def parseFloatCore (l : List Char) : Option ℚ :=
  match List.splitOn '.' l with
  | [a] =>
    if a ≠ [] ∧ a.all isDigitCh then some (mkRat (digitsToNat a) 1) else none
  | [a, b] =>
    if (a ≠ [] ∨ b ≠ []) ∧ a.all isDigitCh ∧ b.all isDigitCh then
      some (mkRat (digitsToNat a * 10 ^ b.length + digitsToNat b) (10 ^ b.length))
    else none
  | _ => none

/-- Python `float(s)` restricted to the decimal notation the program ever
    feeds it (optional sign, digits, optional point; surrounding spaces
    tolerated); `none` models the `ValueError` raised otherwise. -/
def parseFloat (s : String) : Option ℚ :=
  match stripSpaces s.data with
  | '-' :: rest => (parseFloatCore rest).map (fun q => -q)
  | '+' :: rest => parseFloatCore rest
  | l => parseFloatCore l

/-- Python `int(s)`: optional sign then digits; `none` models `ValueError`. -/
def parseInt (s : String) : Option Int :=
  match stripSpaces s.data with
  | '-' :: rest =>
    if rest ≠ [] ∧ rest.all isDigitCh then some (-(digitsToNat rest : Int)) else none
  | '+' :: rest =>
    if rest ≠ [] ∧ rest.all isDigitCh then some (digitsToNat rest : Int) else none
  | l => if l ≠ [] ∧ l.all isDigitCh then some (digitsToNat l : Int) else none

/-- The base payload every employee carries (`Employee.__init__` plus the
    three base property setters). -/
structure EmployeeBase where
  id_number : Nat
  name : String
  email : String
  image : String
deriving DecidableEq

/-- `Employee.__init__(name, email)` with the class attribute
    `Employee.id_number` threaded as `ctr`: the instance id is read from
    the counter and the counter is incremented BEFORE the name and email
    setters run, so every attempt that reaches this initializer consumes
    one identity even when validation then fails. -/
def employeeInit (ctr : Nat) (name email : String) :
    Except PyErr EmployeeBase × Nat :=
  let myId := ctr
  let ctr2 := ctr + 1
  match nameSet name with
  | .error e => (.error e, ctr2)
  | .ok n =>
    match emailSet email with
    | .error e => (.error e, ctr2)
    | .ok m =>
      match imageSet IMAGE_PLACEHOLDER with
      | .error e => (.error e, ctr2)
      | .ok img => (.ok ⟨myId, n, m, img⟩, ctr2)

/-- The four instantiable leaf variants of the hierarchy. -/
inductive Employee
  | executive (base : EmployeeBase) (yearly : ℚ) (role : Role)
  | manager (base : EmployeeBase) (yearly : ℚ) (department : Department)
  | permanent (base : EmployeeBase) (hourly_wage : ℚ) (hired_date : String)
  | temporary (base : EmployeeBase) (hourly_wage : ℚ) (last_day : String)
deriving DecidableEq

/-- `Salaried.__init__`: base initializer, then the `yearly` setter. -/
def salariedInit (ctr : Nat) (name email : String) (yearly : ℚ) :
    Except PyErr (EmployeeBase × ℚ) × Nat :=
  match employeeInit ctr name email with
  | (.error e, c) => (.error e, c)
  | (.ok b, c) =>
    match yearlySet yearly with
    | .error e => (.error e, c)
    | .ok y => (.ok (b, y), c)

/-- `Hourly.__init__`: base initializer, then the `hourly_wage` setter. -/
def hourlyInit (ctr : Nat) (name email : String) (hourly_wage : ℚ) :
    Except PyErr (EmployeeBase × ℚ) × Nat :=
  match employeeInit ctr name email with
  | (.error e, c) => (.error e, c)
  | (.ok b, c) =>
    match hourlyWageSet hourly_wage with
    | .error e => (.error e, c)
    | .ok w => (.ok (b, w), c)

/-- `Executive.__init__`: Salaried initializer, then
    `if role not in [s.value for s in Role]: raise` and `self.role = Role(role)`
    (an enum-member argument is never equal to an int value, so it fails). -/
def executiveInit (ctr : Nat) (name email : String) (yearly : ℚ) (role : PyVal) :
    Except PyErr Employee × Nat :=
  match salariedInit ctr name email yearly with
  | (.error e, c) => (.error e, c)
  | (.ok (b, y), c) =>
    match role with
    | .int n =>
      match Role.fromCode n with
      | some r => (.ok (.executive b y r), c)
      | none => (.error (.invalidRole (role.pyStr ++ " is not a valid role.")), c)
    | _ => (.error (.invalidRole (role.pyStr ++ " is not a valid role.")), c)

/-- `Manager.__init__`: Salaried initializer, then
    `if department not in [d.value for d in Department]: raise` and
    `self.department = Department(department)`. -/
def managerInit (ctr : Nat) (name email : String) (yearly : ℚ)
    (department : PyVal) : Except PyErr Employee × Nat :=
  match salariedInit ctr name email yearly with
  | (.error e, c) => (.error e, c)
  | (.ok (b, y), c) =>
    match department with
    | .int n =>
      match Department.fromCode n with
      | some d => (.ok (.manager b y d), c)
      | none =>
        (.error (.invalidDept (department.pyStr ++ " is not a valid department.")), c)
    | _ =>
      (.error (.invalidDept (department.pyStr ++ " is not a valid department.")), c)

/-- `Permanent.__init__`: Hourly initializer, then the unvalidated
    `hired_date` assignment. -/
def permanentInit (ctr : Nat) (name email : String) (hourly_wage : ℚ)
    (hired_date : String) : Except PyErr Employee × Nat :=
  match hourlyInit ctr name email hourly_wage with
  | (.error e, c) => (.error e, c)
  | (.ok (b, w), c) => (.ok (.permanent b w hired_date), c)

/-- `Temporary.__init__`: Hourly initializer, then the unvalidated
    `last_day` assignment. -/
def temporaryInit (ctr : Nat) (name email : String) (hourly_wage : ℚ)
    (last_day : String) : Except PyErr Employee × Nat :=
  match hourlyInit ctr name email hourly_wage with
  | (.error e, c) => (.error e, c)
  | (.ok (b, w), c) => (.ok (.temporary b w last_day), c)

/-- Shared base payload of a record. -/
def Employee.base : Employee → EmployeeBase
  | .executive b _ _ => b
  | .manager b _ _ => b
  | .permanent b _ _ => b
  | .temporary b _ _ => b

/-- Replace the email field of a record's base payload. -/
def Employee.withEmail : Employee → String → Employee
  | .executive b y r, s => .executive { b with email := s } y r
  | .manager b y d, s => .manager { b with email := s } y d
  | .permanent b w hd, s => .permanent { b with email := s } w hd
  | .temporary b w ld, s => .temporary { b with email := s } w ld

/-- Assigning `e.email = s` on an existing record: the setter validates
    first and only then commits, so on failure the record is returned
    untouched together with the raised error. -/
def setEmail (e : Employee) (s : String) : Employee × Option PyErr :=
  match emailSet s with
  | .ok v => (e.withEmail v, none)
  | .error err => (e, some err)

/-- `calc_pay`: `Salaried.calc_pay` returns `yearly / 52.0`,
    `Hourly.calc_pay` returns `hourly_wage * 40.0`. -/
def calcPay : Employee → ℚ
  | .executive _ y _ => y / 52
  | .manager _ y _ => y / 52
  | .permanent _ w _ => w * 40
  | .temporary _ w _ => w * 40

/-- `Employee.__repr__`: `f"{self.name}, {self.email}, {self.image}"`
    (note the space after each comma). -/
def EmployeeBase.reprStr (b : EmployeeBase) : String :=
  b.name ++ ", " ++ b.email ++ ", " ++ b.image

/-- `Salaried.__repr__`: `f"{base_repr}, {self.yearly}"` (comma-space). -/
def salariedRepr (b : EmployeeBase) (y : ℚ) : String :=
  b.reprStr ++ ", " ++ pyStrFloat y

/-- `Hourly.__repr__`: `f"{base_repr},{self.hourly_wage}"` (no space). -/
def hourlyRepr (b : EmployeeBase) (w : ℚ) : String :=
  b.reprStr ++ "," ++ pyStrFloat w

/-- The `__repr__` of each leaf class, chaining through its parents:
    Executive and Manager append `,<enum name>`, Permanent appends
    `,<hired_date>`, Temporary appends `, <last_day>` (with a space). -/
def Employee.reprStr : Employee → String
  | .executive b y r => salariedRepr b y ++ "," ++ r.ename
  | .manager b y d => salariedRepr b y ++ "," ++ d.ename
  | .permanent b w hd => hourlyRepr b w ++ "," ++ hd
  | .temporary b w ld => hourlyRepr b w ++ ", " ++ ld

/-- `type(employee).__name__`. -/
def Employee.typeName : Employee → String
  | .executive _ _ _ => "Executive"
  | .manager _ _ _ => "Manager"
  | .permanent _ _ _ => "Permanent"
  | .temporary _ _ _ => "Temporary"

/-- One output line of `MainWindow.save_file`:
    `type(employee).__name__ + ',' + employee.__repr__()` (the trailing
    newline is the line separator and not part of the field data). -/
def encodeLine (e : Employee) : String :=
  e.typeName ++ "," ++ e.reprStr

/-- `MainWindow.save_file` over the whole roster: one line per record,
    in roster order, overwriting the file. -/
def saveLines (data : List Employee) : List String :=
  data.map encodeLine

/-- States of the CSV field scanner: start of a field, inside an
    unquoted field, inside a quoted field, just after a closing quote. -/
inductive CsvState
  | fieldStart
  | unquoted
  | quoted
  | afterQuote
deriving DecidableEq

/-- Field scanner of `csv.reader` (delimiter `,`, quotechar `"`,
    doublequote on, QUOTE_MINIMAL) on a single line.  `acc` is the
    current field, `out` the completed fields. -/
def csvRun : CsvState → List Char → List Char → List String → List String
  | .fieldStart, [], _, out => out ++ [""]
  | .fieldStart, c :: r, _, out =>
    if c = ',' then csvRun .fieldStart r [] (out ++ [""])
    else if c = '"' then csvRun .quoted r [] out
    else csvRun .unquoted r [c] out
  | .unquoted, [], acc, out => out ++ [String.mk acc]
  | .unquoted, c :: r, acc, out =>
    if c = ',' then csvRun .fieldStart r [] (out ++ [String.mk acc])
    else csvRun .unquoted r (acc ++ [c]) out
  | .quoted, [], acc, out => out ++ [String.mk acc]
  | .quoted, c :: r, acc, out =>
    if c = '"' then csvRun .afterQuote r acc out
    else csvRun .quoted r (acc ++ [c]) out
  | .afterQuote, [], acc, out => out ++ [String.mk acc]
  | .afterQuote, c :: r, acc, out =>
    if c = '"' then csvRun .quoted r (acc ++ ['"']) out
    else if c = ',' then csvRun .fieldStart r [] (out ++ [String.mk acc])
    else csvRun .unquoted r (acc ++ [c]) out

/-- `csv.reader` applied to one line of text: a blank line yields the
    empty row, otherwise the scanned fields. -/
def csvSplit (s : String) : List String :=
  match s.data with
  | [] => []
  | l => csvRun .fieldStart l [] []

/-- The mutable state `MainWindow.load_file` works against: the `_data`
    list, the class counter `Employee.id_number`, and the function-local
    variable `employee`, which persists from one loop iteration to the
    next and is what an unrecognized tag falls through to. -/
structure LoadState where
  data : List Employee
  ctr : Nat
  lastVar : Option Employee
deriving DecidableEq

/-- `row[i]`: `IndexError` when the row is too short. -/
def rowGet (row : List String) (i : Nat) : Except PyErr String :=
  match row.get? i with
  | some v => .ok v
  | none => .error .indexError

/-- Outcome of one iteration of the `load_file` loop, independent of the
    roster contents: the records appended (none, the new one, or the
    stale `employee` variable), the updated counter and local variable,
    and the exception that aborted the iteration, if any. -/
structure RowResult where
  recs : List Employee
  ctr : Nat
  lastVar : Option Employee
  err : Option PyErr
deriving DecidableEq

/-- One iteration of the `load_file` loop on row `row`.  `row[0]`..`row[3]`
    are read first; then the four tag tests (`'Executive'`, `'Manager'`,
    `'Temp'`, `'Permanent'`) run in order; an unmatched tag leaves
    `employee` at its previous value, so `self._data.append(employee)`
    either raises `UnboundLocalError` or re-appends the previous record. -/
def loadRowCore (ctr : Nat) (lastVar : Option Employee) (row : List String) :
    RowResult :=
  match rowGet row 0 with
  | .error e => ⟨[], ctr, lastVar, some e⟩
  | .ok ty =>
  match rowGet row 1 with
  | .error e => ⟨[], ctr, lastVar, some e⟩
  | .ok name =>
  match rowGet row 2 with
  | .error e => ⟨[], ctr, lastVar, some e⟩
  | .ok email =>
  match rowGet row 3 with
  | .error e => ⟨[], ctr, lastVar, some e⟩
  | .ok _image =>
  if ty = "Executive" then
    match rowGet row 4 with
    | .error e => ⟨[], ctr, lastVar, some e⟩
    | .ok s4 =>
    match parseFloat s4 with
    | none => ⟨[], ctr, lastVar, some (.valueError "could not convert string to float")⟩
    | some salary =>
    match rowGet row 5 with
    | .error e => ⟨[], ctr, lastVar, some e⟩
    | .ok s5 =>
    match parseInt s5 with
    | none => ⟨[], ctr, lastVar, some (.valueError "invalid literal for int() with base 10")⟩
    | some role =>
    match executiveInit ctr name email salary (.int role) with
    | (.error e, c) => ⟨[], c, lastVar, some e⟩
    | (.ok emp, c) => ⟨[emp], c, some emp, none⟩
  else if ty = "Manager" then
    match rowGet row 4 with
    | .error e => ⟨[], ctr, lastVar, some e⟩
    | .ok s4 =>
    match parseFloat s4 with
    | none => ⟨[], ctr, lastVar, some (.valueError "could not convert string to float")⟩
    | some salary =>
    match rowGet row 5 with
    | .error e => ⟨[], ctr, lastVar, some e⟩
    | .ok s5 =>
    match parseInt s5 with
    | none => ⟨[], ctr, lastVar, some (.valueError "invalid literal for int() with base 10")⟩
    | some department =>
    match managerInit ctr name email salary (.int department) with
    | (.error e, c) => ⟨[], c, lastVar, some e⟩
    | (.ok emp, c) => ⟨[emp], c, some emp, none⟩
  else if ty = "Temp" then
    match rowGet row 4 with
    | .error e => ⟨[], ctr, lastVar, some e⟩
    | .ok s4 =>
    match parseFloat s4 with
    | none => ⟨[], ctr, lastVar, some (.valueError "could not convert string to float")⟩
    | some hourly =>
    match rowGet row 5 with
    | .error e => ⟨[], ctr, lastVar, some e⟩
    | .ok last_day =>
    match temporaryInit ctr name email hourly last_day with
    | (.error e, c) => ⟨[], c, lastVar, some e⟩
    | (.ok emp, c) => ⟨[emp], c, some emp, none⟩
  else if ty = "Permanent" then
    match rowGet row 4 with
    | .error e => ⟨[], ctr, lastVar, some e⟩
    | .ok s4 =>
    match parseFloat s4 with
    | none => ⟨[], ctr, lastVar, some (.valueError "could not convert string to float")⟩
    | some hourly =>
    match rowGet row 5 with
    | .error e => ⟨[], ctr, lastVar, some e⟩
    | .ok hired_date =>
    match permanentInit ctr name email hourly hired_date with
    | (.error e, c) => ⟨[], c, lastVar, some e⟩
    | (.ok emp, c) => ⟨[emp], c, some emp, none⟩
  else
    match lastVar with
    | none => ⟨[], ctr, lastVar, some .unboundLocal⟩
    | some emp => ⟨[emp], ctr, some emp, none⟩

/-- One loop iteration applied to the full mutable state: the records of
    this iteration are appended to `_data`. -/
def loadRow (st : LoadState) (row : List String) : LoadState × Option PyErr :=
  let r := loadRowCore st.ctr st.lastVar row
  (⟨st.data ++ r.recs, r.ctr, r.lastVar⟩, r.err)

/-- The whole `load_file` loop on a list of CSV rows: iterations run in
    order until the first exception, which aborts the loop with the
    partially extended state (no rollback). -/
def loadRows : LoadState → List (List String) → LoadState × Option PyErr
  | st, [] => (st, none)
  | st, row :: rest =>
    match loadRow st row with
    | (st2, none) => loadRows st2 rest
    | (st2, some e) => (st2, some e)

/-- `load_file` on raw text lines: `csv.reader` splits each line into a
    row, then the loop runs. -/
def loadLines (st : LoadState) (lines : List String) : LoadState × Option PyErr :=
  loadRows st (lines.map csvSplit)

/-! Concrete records and rows used by the concrete parts of the claims. -/

/-- An Executive as constructed by `Executive("John", "john@acme-machining.com", 52000.0, 1)`
    with the counter at 0. -/
def execJohn : Employee :=
  .executive ⟨0, "John", "john@acme-machining.com", IMAGE_PLACEHOLDER⟩ 52000 .CEO

/-- A Permanent hourly employee, counter at 0, wage 20, hired 2023-01-01. -/
def permAnn : Employee :=
  .permanent ⟨0, "Ann", "ann@acme-machining.com", IMAGE_PLACEHOLDER⟩ 20 "2023-01-01"

/-- A Temporary hourly employee, counter at 0, wage 20, last day 2023-05-05. -/
def tempAnn : Employee :=
  .temporary ⟨0, "Ann", "ann@acme-machining.com", IMAGE_PLACEHOLDER⟩ 20 "2023-05-05"

/-- A well-formed Permanent CSV row as `load_file` receives it. -/
def goodPermRow : List String :=
  ["Permanent", "Ann", "ann@acme-machining.com", "i", "20.0", "2023-01-01"]

/-- A row with an unrecognized category tag but a plausible field count. -/
def bossRow : List String :=
  ["Boss", "Bob", "b@acme-machining.com", "i", "20.0", "1"]

/-- The record `load_file` builds from `goodPermRow` at counter `c`
    (the image column is read into `_image` and discarded, so the image is
    the placeholder again). -/
def permAnnLoaded (c : Nat) : Employee :=
  .permanent ⟨c, "Ann", "ann@acme-machining.com", "./images/placeholder.png"⟩ 20 "2023-01-01"

/-! Bridges between the decimal literals of the claims and the
    kernel-computable `mkRat` forms used in the definitions. -/

theorem q9999_eq : (99.99 : ℚ) = mkRat 9999 100 := by
  rw [Rat.mkRat_eq_divInt, Rat.divInt_eq_div]; norm_num

theorem q4999999_eq : (49999.99 : ℚ) = mkRat 4999999 100 := by
  rw [Rat.mkRat_eq_divInt, Rat.divInt_eq_div]; norm_num

theorem q1499_eq : (14.99 : ℚ) = mkRat 1499 100 := by
  rw [Rat.mkRat_eq_divInt, Rat.divInt_eq_div]; norm_num

/-! Claim theorems. -/

/-- C5: for every numeric input, the Salaried yearly setter (used by the
    constructors) fails with the ValueError that models `InvalidField`
    exactly when the amount is below 50000 (no upper bound), and the
    Hourly wage setter exactly when the rate is below 15 or above 99.99;
    hence constructing with 49999.99 / 14.99 / 100.00 fails and with
    50000 / 99.99 succeeds. -/
theorem claim_c5_pay_validation :
    (∀ q : ℚ, (∃ m, yearlySet q = .error (.valueError m)) ↔ q < 50000) ∧
    (∀ q : ℚ, (∃ m, hourlyWageSet q = .error (.valueError m)) ↔ (q < 15 ∨ 99.99 < q)) ∧
    (∀ q : ℚ, ¬ q < 50000 → yearlySet q = .ok q) ∧
    (∀ q : ℚ, ¬ (q < 15 ∨ 99.99 < q) → hourlyWageSet q = .ok q) ∧
    (managerInit 0 "Jo" "jo@acme-machining.com" (49999.99 : ℚ) (.int 3)).fst =
      .error (.valueError "Yearly salary must be over $50,000") ∧
    (∃ emp, (managerInit 0 "Jo" "jo@acme-machining.com" 50000 (.int 3)).fst = .ok emp) ∧
    (permanentInit 0 "Jo" "jo@acme-machining.com" (14.99 : ℚ) "d").fst =
      .error (.valueError "Hourly wage must be between $15 and $99.99 (inclusive)") ∧
    (permanentInit 0 "Jo" "jo@acme-machining.com" 100 "d").fst =
      .error (.valueError "Hourly wage must be between $15 and $99.99 (inclusive)") ∧
    (∃ emp, (permanentInit 0 "Jo" "jo@acme-machining.com" (99.99 : ℚ) "d").fst = .ok emp) := by
  refine ⟨?_, ?_, ?_, ?_, ?_, ?_, ?_, ?_, ?_⟩
  · intro q
    unfold yearlySet
    split <;> simp_all
  · intro q
    rw [q9999_eq]
    unfold hourlyWageSet
    split <;> simp_all
  · intro q h
    unfold yearlySet
    simp [h]
  · intro q h
    rw [q9999_eq] at h
    unfold hourlyWageSet
    simp [h]
  · rw [q4999999_eq]; decide
  · exact ⟨.manager ⟨0, "Jo", "jo@acme-machining.com", IMAGE_PLACEHOLDER⟩ 50000 .HR, by decide⟩
  · rw [q1499_eq]; decide
  · decide
  · rw [q9999_eq]
    exact ⟨.permanent ⟨0, "Jo", "jo@acme-machining.com", IMAGE_PLACEHOLDER⟩ (mkRat 9999 100) "d",
      by decide⟩

/-- C5 witness: the boundary inputs 50000 and 99.99 succeed, by the
    general setter facts of the claim theorem. -/
theorem claim_c5_pay_validation_witness :
    yearlySet (50000 : ℚ) = .ok 50000 ∧
    hourlyWageSet (99.99 : ℚ) = .ok (99.99 : ℚ) :=
  ⟨claim_c5_pay_validation.2.2.1 50000 (by decide),
   claim_c5_pay_validation.2.2.2.1 (99.99 : ℚ) (by rw [q9999_eq]; decide)⟩

/-- C6: `calc_pay` returns `yearly / 52.0` for the Salaried-derived
    variants and `hourly_wage * 40.0` for the Hourly-derived ones, with
    no rounding; at yearly 52000 it is exactly 1000 and at rate 20
    exactly 800. -/
theorem claim_c6_calcPay :
    (∀ (b : EmployeeBase) (y : ℚ) (r : Role), calcPay (.executive b y r) = y / 52) ∧
    (∀ (b : EmployeeBase) (y : ℚ) (d : Department), calcPay (.manager b y d) = y / 52) ∧
    (∀ (b : EmployeeBase) (w : ℚ) (hd : String), calcPay (.permanent b w hd) = w * 40) ∧
    (∀ (b : EmployeeBase) (w : ℚ) (ld : String), calcPay (.temporary b w ld) = w * 40) ∧
    calcPay execJohn = 1000 ∧
    calcPay permAnn = 800 :=
  ⟨fun _ _ _ => rfl, fun _ _ _ => rfl, fun _ _ _ => rfl, fun _ _ _ => rfl,
   by norm_num [execJohn, calcPay], by norm_num [permAnn, calcPay]⟩

/-! Substring semantics of the Python `in` operator. -/

theorem startsWithL_iff (p l : List Char) :
    startsWithL p l = true ↔ ∃ t, l = p ++ t := by
  induction p generalizing l with
  | nil =>
    simp [startsWithL]
  | cons a ps ih =>
    cases l with
    | nil => simp [startsWithL]
    | cons c cs =>
      simp only [startsWithL, Bool.and_eq_true, beq_iff_eq, ih, List.cons_append,
        List.cons_eq_cons]
      constructor
      · rintro ⟨h1, t, h2⟩
        exact ⟨t, h1.symm, h2⟩
      · rintro ⟨t, h1, h2⟩
        exact ⟨h1.symm, t, h2⟩

theorem containsSub_iff (pat hay : List Char) :
    containsSub pat hay = true ↔ ∃ p q, hay = p ++ pat ++ q := by
  induction hay with
  | nil =>
    simp only [containsSub, startsWithL_iff]
    constructor
    · rintro ⟨t, ht⟩
      exact ⟨[], t, by simpa using ht⟩
    · rintro ⟨p, q, hpq⟩
      rw [List.nil_eq, List.append_assoc, List.append_eq_nil] at hpq
      exact ⟨q, by simp [hpq.1, hpq.2]⟩
  | cons c t ih =>
    simp only [containsSub, Bool.or_eq_true, startsWithL_iff, ih]
    constructor
    · rintro (⟨q, hq⟩ | ⟨p, q, hpq⟩)
      · exact ⟨[], q, by simpa using hq⟩
      · exact ⟨c :: p, q, by simp [hpq]⟩
    · rintro ⟨p, q, hpq⟩
      cases p with
      | nil => exact Or.inl ⟨q, by simpa using hpq⟩
      | cons x xs =>
        rw [List.cons_append, List.cons_append, List.cons_eq_cons] at hpq
        exact Or.inr ⟨xs, q, by simpa using hpq.2⟩

/-- C7: setting the email of any existing record fails (with the
    ValueError modelling `InvalidField`) exactly when the new string is
    empty or does not contain "@acme-machining.com" as a case-sensitive
    substring; on failure the record — in particular its previous email —
    is left untouched, and on success the email is replaced verbatim. -/
theorem claim_c7_email : ∀ (e : Employee) (s : String),
    ((setEmail e s).snd ≠ none ↔
      (s = "" ∨ ¬ ∃ p q, s.data = p ++ REQUIRED_DOMAIN.data ++ q)) ∧
    (∀ err, (setEmail e s).snd = some err → ∃ m, err = .valueError m) ∧
    ((setEmail e s).snd ≠ none → (setEmail e s).fst = e) ∧
    ((setEmail e s).snd = none → (setEmail e s).fst = e.withEmail s) := by
  intro e s
  unfold setEmail emailSet strContains
  by_cases h0 : s = ""
  · simp [h0]
  · by_cases h1 : containsSub REQUIRED_DOMAIN.data s.data
    · have hsub := (containsSub_iff REQUIRED_DOMAIN.data s.data).mp h1
      simp only [h0, h1, if_false, if_true, reduceIte]
      simp [h0]
      simpa [List.append_assoc] using hsub
    · have hsub : ¬ ∃ p q, s.data = p ++ REQUIRED_DOMAIN.data ++ q := by
        intro hc
        exact absurd ((containsSub_iff REQUIRED_DOMAIN.data s.data).mpr hc) h1
      simp [h0, h1]
      simpa [not_exists, List.append_assoc] using hsub

/-- C7 witness: on the concrete Permanent record, an email without the
    domain is rejected leaving the record unchanged, and an email with
    the domain is committed verbatim. -/
theorem claim_c7_email_witness :
    (setEmail permAnn "bob@gmail.com").fst = permAnn ∧
    (setEmail permAnn "bob@acme-machining.com").fst =
      permAnn.withEmail "bob@acme-machining.com" :=
  ⟨(claim_c7_email permAnn "bob@gmail.com").2.2.1 (by decide),
   (claim_c7_email permAnn "bob@acme-machining.com").2.2.2 (by decide)⟩

/-! Identity counter lemmas. -/

theorem employeeInit_snd (c : Nat) (n e : String) :
    (employeeInit c n e).snd = c + 1 := by
  unfold employeeInit
  cases nameSet n <;> cases emailSet e <;> cases imageSet IMAGE_PLACEHOLDER <;> rfl

theorem employeeInit_ok (c : Nat) (n e : String) (b : EmployeeBase)
    (h : (employeeInit c n e).fst = .ok b) : b.id_number = c := by
  revert h
  unfold employeeInit
  cases nameSet n <;> cases emailSet e <;> cases imageSet IMAGE_PLACEHOLDER <;>
    intro h <;> simp_all <;> simp [← h]

theorem salariedInit_snd (c : Nat) (n e : String) (y : ℚ) :
    (salariedInit c n e y).snd = c + 1 := by
  have hc := employeeInit_snd c n e
  unfold salariedInit
  cases hE : employeeInit c n e with
  | mk fst snd =>
    rw [hE] at hc
    cases fst <;> cases yearlySet y <;> simp_all

theorem salariedInit_ok (c : Nat) (n e : String) (y : ℚ) (b : EmployeeBase) (v : ℚ)
    (h : (salariedInit c n e y).fst = .ok (b, v)) : b.id_number = c := by
  revert h
  unfold salariedInit
  cases hE : employeeInit c n e with
  | mk fst snd =>
    cases fst with
    | error err => intro h; simp_all
    | ok b2 =>
      have hb2 : b2.id_number = c := employeeInit_ok c n e b2 (by rw [hE])
      cases yearlySet y <;> intro h <;> simp_all

theorem hourlyInit_snd (c : Nat) (n e : String) (w : ℚ) :
    (hourlyInit c n e w).snd = c + 1 := by
  have hc := employeeInit_snd c n e
  unfold hourlyInit
  cases hE : employeeInit c n e with
  | mk fst snd =>
    rw [hE] at hc
    cases fst <;> cases hourlyWageSet w <;> simp_all

theorem hourlyInit_ok (c : Nat) (n e : String) (w : ℚ) (b : EmployeeBase) (v : ℚ)
    (h : (hourlyInit c n e w).fst = .ok (b, v)) : b.id_number = c := by
  revert h
  unfold hourlyInit
  cases hE : employeeInit c n e with
  | mk fst snd =>
    cases fst with
    | error err => intro h; simp_all
    | ok b2 =>
      have hb2 : b2.id_number = c := employeeInit_ok c n e b2 (by rw [hE])
      cases hourlyWageSet w <;> intro h <;> simp_all

/-- C2 counterexample: constructing an Executive with the invalid role
    code 4 (and otherwise valid fields) raises the invalid-role error,
    yet moves the identity counter from 0 to 1 — a failed construction
    does consume an identity value, contrary to the claim. -/
theorem claim_c2_counterexample :
    (executiveInit 0 "John" "john@acme-machining.com" 60000 (PyVal.int 4)).fst =
      Except.error (PyErr.invalidRole "4 is not a valid role.") ∧
    (executiveInit 0 "John" "john@acme-machining.com" 60000 (PyVal.int 4)).snd ≠ 0 := by
  decide

/-- C2 amended: identity is read from the process-wide counter and the
    counter is incremented as the FIRST step of the base initializer, so
    every construction attempt — successful or not — advances the counter
    by exactly one, and a successful construction returns a record whose
    identity equals the counter value at the start of the attempt (hence
    successful constructions with no intervening failed attempt have
    consecutive identities, but each failed attempt burns one identity). -/
theorem claim_c2_amended : ∀ (c : Nat) (nm em : String) (y w : ℚ) (v : PyVal)
    (hd ld : String),
    (executiveInit c nm em y v).snd = c + 1 ∧
    (managerInit c nm em y v).snd = c + 1 ∧
    (permanentInit c nm em w hd).snd = c + 1 ∧
    (temporaryInit c nm em w ld).snd = c + 1 ∧
    (∀ emp, (executiveInit c nm em y v).fst = .ok emp → emp.base.id_number = c) ∧
    (∀ emp, (managerInit c nm em y v).fst = .ok emp → emp.base.id_number = c) ∧
    (∀ emp, (permanentInit c nm em w hd).fst = .ok emp → emp.base.id_number = c) ∧
    (∀ emp, (temporaryInit c nm em w ld).fst = .ok emp → emp.base.id_number = c) := by
  intro c nm em y w v hd ld
  have hs := salariedInit_snd c nm em y
  have hh := hourlyInit_snd c nm em w
  refine ⟨?_, ?_, ?_, ?_, ?_, ?_, ?_, ?_⟩
  · unfold executiveInit
    cases hE : salariedInit c nm em y with
    | mk fst snd =>
      rw [hE] at hs
      cases fst with
      | error err => simp_all
      | ok p => cases v <;> simp_all <;> cases Role.fromCode _ <;> simp_all
  · unfold managerInit
    cases hE : salariedInit c nm em y with
    | mk fst snd =>
      rw [hE] at hs
      cases fst with
      | error err => simp_all
      | ok p => cases v <;> simp_all <;> cases Department.fromCode _ <;> simp_all
  · unfold permanentInit
    cases hE : hourlyInit c nm em w with
    | mk fst snd =>
      rw [hE] at hh
      cases fst <;> simp_all
  · unfold temporaryInit
    cases hE : hourlyInit c nm em w with
    | mk fst snd =>
      rw [hE] at hh
      cases fst <;> simp_all
  · intro emp
    unfold executiveInit
    cases hE : salariedInit c nm em y with
    | mk fst snd =>
      cases fst with
      | error err => simp_all
      | ok p =>
        obtain ⟨b, yv⟩ := p
        have hid : b.id_number = c := salariedInit_ok c nm em y b yv (by rw [hE])
        cases v with
        | int n =>
          intro h
          cases hR : Role.fromCode n with
          | some r =>
            simp only [hR] at h
            simp only [Except.ok.injEq] at h
            subst h
            simpa [Employee.base] using hid
          | none => simp [hR] at h
        | roleMem r => intro h; simp at h
        | deptMem d => intro h; simp at h
  · intro emp
    unfold managerInit
    cases hE : salariedInit c nm em y with
    | mk fst snd =>
      cases fst with
      | error err => simp_all
      | ok p =>
        obtain ⟨b, yv⟩ := p
        have hid : b.id_number = c := salariedInit_ok c nm em y b yv (by rw [hE])
        cases v with
        | int n =>
          intro h
          cases hD : Department.fromCode n with
          | some d =>
            simp only [hD] at h
            simp only [Except.ok.injEq] at h
            subst h
            simpa [Employee.base] using hid
          | none => simp [hD] at h
        | roleMem r => intro h; simp at h
        | deptMem d => intro h; simp at h
  · intro emp
    unfold permanentInit
    cases hE : hourlyInit c nm em w with
    | mk fst snd =>
      cases fst with
      | error err => simp_all
      | ok p =>
        obtain ⟨b, wv⟩ := p
        have hid : b.id_number = c := hourlyInit_ok c nm em w b wv (by rw [hE])
        intro h
        simp only [Except.ok.injEq] at h
        subst h
        simpa [Employee.base] using hid
  · intro emp
    unfold temporaryInit
    cases hE : hourlyInit c nm em w with
    | mk fst snd =>
      cases fst with
      | error err => simp_all
      | ok p =>
        obtain ⟨b, wv⟩ := p
        have hid : b.id_number = c := hourlyInit_ok c nm em w b wv (by rw [hE])
        intro h
        simp only [Except.ok.injEq] at h
        subst h
        simpa [Employee.base] using hid

/-- C2 amended witness: at counter 5 a successful Executive construction
    returns identity 5 and leaves the counter at 6. -/
theorem claim_c2_amended_witness :
    (executiveInit 5 "John" "john@acme-machining.com" 60000 (PyVal.int 1)).snd = 6 ∧
    (Employee.executive ⟨5, "John", "john@acme-machining.com", IMAGE_PLACEHOLDER⟩
      60000 Role.CEO).base.id_number = 5 :=
  have h := claim_c2_amended 5 "John" "john@acme-machining.com" 60000 20 (PyVal.int 1) "d" "d"
  ⟨h.1, h.2.2.2.2.1 _ (by decide)⟩

/-! The load loop only ever appends to `_data`; it never clears or
    restores it.  `loadRows_shift` makes the roster prefix explicit. -/

theorem loadRows_shift (rows : List (List String)) :
    ∀ (d : List Employee) (c : Nat) (v : Option Employee),
    loadRows ⟨d, c, v⟩ rows =
      (⟨d ++ (loadRows ⟨[], c, v⟩ rows).fst.data,
        (loadRows ⟨[], c, v⟩ rows).fst.ctr,
        (loadRows ⟨[], c, v⟩ rows).fst.lastVar⟩,
       (loadRows ⟨[], c, v⟩ rows).snd) := by
  induction rows with
  | nil => intro d c v; simp [loadRows]
  | cons row rest ih =>
    intro d c v
    simp only [loadRows, loadRow]
    cases hE : (loadRowCore c v row).err with
    | none =>
      simp only [hE]
      rw [ih (d ++ (loadRowCore c v row).recs) (loadRowCore c v row).ctr
        (loadRowCore c v row).lastVar]
      simp only [List.nil_append]
      rw [ih (loadRowCore c v row).recs (loadRowCore c v row).ctr
        (loadRowCore c v row).lastVar]
      simp [List.append_assoc]
    | some e =>
      simp [hE]

/-- C3 counterexample: loading a two-row file whose first row is a valid
    Permanent record and whose second row has too few fields aborts with
    `IndexError`, yet the roster (initially empty) now contains the first
    row's record — load is not all-or-nothing and does not restore the
    pre-load state. -/
theorem claim_c3_counterexample :
    (loadRows ⟨[], 0, none⟩ [goodPermRow, ["Permanent", "Ann"]]).snd =
      some PyErr.indexError ∧
    (loadRows ⟨[], 0, none⟩ [goodPermRow, ["Permanent", "Ann"]]).fst.data =
      [permAnnLoaded 0] ∧
    permAnnLoaded 0 ∉ ([] : List Employee) := by
  refine ⟨by decide, by decide, by decide⟩

/-- C3 amended: a row that fails to parse aborts the load at that row
    (later rows are never processed), but the records built from the rows
    before the failure stay appended: the post-load roster is the prior
    roster followed by the records parsed before the failure, not the
    pre-load state. -/
theorem claim_c3_amended :
    (∀ (st : LoadState) (rows : List (List String)),
      (loadRows st rows).snd ≠ none →
        (loadRows st rows).fst.data =
          st.data ++ (loadRows ⟨[], st.ctr, st.lastVar⟩ rows).fst.data) ∧
    (∀ (st : LoadState) (row : List String) (rest : List (List String)) (e : PyErr),
      (loadRow st row).snd = some e →
        loadRows st (row :: rest) = ((loadRow st row).fst, some e)) := by
  constructor
  · intro st rows _
    cases st with
    | mk d c v => rw [loadRows_shift rows d c v]
  · intro st row rest e h
    simp only [loadRows]
    cases hL : loadRow st row with
    | mk st2 eo =>
      rw [hL] at h
      simp only [] at h
      subst h
      simp [hL]

/-- C3 amended witness: with a non-empty prior roster and the two-row
    file of the counterexample, the post-load roster is the prior record
    followed by the first row's record, and the load stopped at row two. -/
theorem claim_c3_amended_witness :
    (loadRows ⟨[execJohn], 7, none⟩ [goodPermRow, ["Permanent", "Ann"]]).fst.data =
      [execJohn] ++
        (loadRows ⟨[], 7, none⟩ [goodPermRow, ["Permanent", "Ann"]]).fst.data ∧
    loadRows ⟨[execJohn, permAnnLoaded 7], 8, some (permAnnLoaded 7)⟩
        (["Permanent", "Ann"] :: [goodPermRow]) =
      ((loadRow ⟨[execJohn, permAnnLoaded 7], 8, some (permAnnLoaded 7)⟩
          ["Permanent", "Ann"]).fst, some PyErr.indexError) :=
  ⟨claim_c3_amended.1 ⟨[execJohn], 7, none⟩ [goodPermRow, ["Permanent", "Ann"]]
      (by decide),
   claim_c3_amended.2 ⟨[execJohn, permAnnLoaded 7], 8, some (permAnnLoaded 7)⟩
      ["Permanent", "Ann"] [goodPermRow] PyErr.indexError (by decide)⟩

/-- C10: a successful load appends the parsed records to the existing
    roster contents in file order without clearing them: the post-load
    roster equals the prior records followed by the records the same rows
    produce from an empty roster; concretely, loading the one-line
    Permanent file twice from an empty roster yields the record twice
    (with identities 0 and 1). -/
theorem claim_c10_load_appends :
    (∀ (st : LoadState) (rows : List (List String)),
      (loadRows st rows).snd = none →
        (loadRows st rows).fst.data =
          st.data ++ (loadRows ⟨[], st.ctr, st.lastVar⟩ rows).fst.data) ∧
    (loadRows (loadRows ⟨[], 0, none⟩ [goodPermRow]).fst [goodPermRow]).fst.data =
      [permAnnLoaded 0, permAnnLoaded 1] := by
  constructor
  · intro st rows _
    cases st with
    | mk d c v => rw [loadRows_shift rows d c v]
  · decide

/-- C10 witness: a successful load of the Permanent row onto a roster
    already holding one record appends rather than replaces. -/
theorem claim_c10_load_appends_witness :
    (loadRows ⟨[execJohn], 7, none⟩ [goodPermRow]).fst.data =
      [execJohn] ++ (loadRows ⟨[], 7, none⟩ [goodPermRow]).fst.data :=
  claim_c10_load_appends.1 ⟨[execJohn], 7, none⟩ [goodPermRow] (by decide)

/-- C1: the round-trip law fails on the code; this theorem evaluates the
    encoder and decoder at the failing inputs.  For an Executive, encode
    writes the role NAME ("CEO") while decode parses `int(row[5])`, so the
    reload raises ValueError with the roster unchanged; for a Temporary,
    encode writes the tag "Temporary" but decode only recognizes "Temp",
    so the reload hits the unbound local `employee`; a Manager fails the
    same way as an Executive on `int("HR")`; even for a Permanent, whose
    reload succeeds, the `", "` separators written by `__repr__` leak a
    leading space into the reloaded email, which is not the saved value. -/
theorem claim_c1_roundTrip_fails :
    (loadLines ⟨[], 1, none⟩ [encodeLine execJohn]).snd =
      some (PyErr.valueError "invalid literal for int() with base 10") ∧
    (loadLines ⟨[], 1, none⟩ [encodeLine execJohn]).fst.data = [] ∧
    (loadLines ⟨[], 1, none⟩
        [encodeLine (.manager ⟨0, "John", "john@acme-machining.com",
          IMAGE_PLACEHOLDER⟩ 52000 .HR)]).snd =
      some (PyErr.valueError "invalid literal for int() with base 10") ∧
    (loadLines ⟨[], 1, none⟩ [encodeLine tempAnn]).snd = some PyErr.unboundLocal ∧
    (loadLines ⟨[], 1, none⟩ [encodeLine permAnn]).snd = none ∧
    (loadLines ⟨[], 1, none⟩ [encodeLine permAnn]).fst.data =
      [Employee.permanent ⟨1, "Ann", " ann@acme-machining.com",
        IMAGE_PLACEHOLDER⟩ 20 "2023-01-01"] ∧
    (" ann@acme-machining.com" : String) ≠ "ann@acme-machining.com" := by
  decide

/-- C4: an unrecognized category tag is not rejected with a clean
    `MalformedRecord`: on the first row it crashes with
    `UnboundLocalError`; on a later row it silently re-appends the
    PREVIOUS row's record and keeps loading (no error at all); and a row
    with too few fields crashes with `IndexError` instead of
    `MalformedRecord`. -/
theorem claim_c4_no_malformed :
    (loadRows ⟨[], 0, none⟩ [bossRow]).snd = some PyErr.unboundLocal ∧
    (loadRows ⟨[], 0, none⟩ [bossRow]).fst.data = [] ∧
    (loadRows ⟨[], 0, none⟩ [goodPermRow, bossRow]).snd = none ∧
    (loadRows ⟨[], 0, none⟩ [goodPermRow, bossRow]).fst.data =
      [permAnnLoaded 0, permAnnLoaded 0] ∧
    (loadRows ⟨[], 0, none⟩ [["Executive", "A"]]).snd = some PyErr.indexError := by
  decide

/-- C8 counterexample: a Manager whose (constructor-accepted) name
    contains a comma is written with no quoting at all, so the saved line
    splits into 7 CSV fields instead of the 6 the layout prescribes —
    minimal CSV quoting is not applied. -/
theorem claim_c8_counterexample :
    (managerInit 0 "Doe, John" "doe@acme-machining.com" 60000 (PyVal.int 3)).fst =
      .ok (.manager ⟨0, "Doe, John", "doe@acme-machining.com",
        IMAGE_PLACEHOLDER⟩ 60000 .HR) ∧
    (csvSplit (encodeLine (.manager ⟨0, "Doe, John", "doe@acme-machining.com",
      IMAGE_PLACEHOLDER⟩ 60000 .HR))).length = 7 ∧
    strContains (encodeLine (.manager ⟨0, "Doe, John", "doe@acme-machining.com",
      IMAGE_PLACEHOLDER⟩ 60000 .HR)) "\"" = false := by
  decide

/-- C8 amended: encode does produce one line with the category tag first
    and the values in declaration order, but the base fields and some
    variant fields are joined with comma-PLUS-SPACE and no CSV quoting is
    ever applied, so a comma-free record splits back into 6 fields (with
    the spaces leaking into the fields) while a field containing a comma
    splits into more than 6. -/
theorem claim_c8_amended :
    (∀ (b : EmployeeBase) (y : ℚ) (r : Role),
      encodeLine (Employee.executive b y r) =
        "Executive" ++ "," ++ b.name ++ ", " ++ b.email ++ ", " ++ b.image ++
          ", " ++ pyStrFloat y ++ "," ++ r.ename) ∧
    (∀ (b : EmployeeBase) (y : ℚ) (d : Department),
      encodeLine (Employee.manager b y d) =
        "Manager" ++ "," ++ b.name ++ ", " ++ b.email ++ ", " ++ b.image ++
          ", " ++ pyStrFloat y ++ "," ++ d.ename) ∧
    (∀ (b : EmployeeBase) (w : ℚ) (hd : String),
      encodeLine (Employee.permanent b w hd) =
        "Permanent" ++ "," ++ b.name ++ ", " ++ b.email ++ ", " ++ b.image ++
          "," ++ pyStrFloat w ++ "," ++ hd) ∧
    (∀ (b : EmployeeBase) (w : ℚ) (ld : String),
      encodeLine (Employee.temporary b w ld) =
        "Temporary" ++ "," ++ b.name ++ ", " ++ b.email ++ ", " ++ b.image ++
          "," ++ pyStrFloat w ++ ", " ++ ld) ∧
    csvSplit (encodeLine execJohn) =
      ["Executive", "John", " john@acme-machining.com",
        " ./images/placeholder.png", " 52000.0", "CEO"] ∧
    (csvSplit (encodeLine (.manager ⟨0, "Doe, John", "doe@acme-machining.com",
      IMAGE_PLACEHOLDER⟩ 60000 .HR))).length ≠ 6 := by
  refine ⟨?_, ?_, ?_, ?_, by decide, by decide⟩ <;>
    intro b q x <;>
    simp [encodeLine, Employee.reprStr, Employee.typeName, salariedRepr,
      hourlyRepr, EmployeeBase.reprStr, String.append_assoc]

/-- C8 amended witness: the Permanent layout equation at the concrete
    record. -/
theorem claim_c8_amended_witness :
    encodeLine permAnn =
      "Permanent" ++ "," ++ "Ann" ++ ", " ++ "ann@acme-machining.com" ++ ", " ++
        IMAGE_PLACEHOLDER ++ "," ++ pyStrFloat 20 ++ "," ++ "2023-01-01" :=
  claim_c8_amended.2.2.1 ⟨0, "Ann", "ann@acme-machining.com", IMAGE_PLACEHOLDER⟩
    20 "2023-01-01"

/-! Enumerated-code helper facts for C9. -/

theorem deptFromCode_some_iff (n : Int) :
    (∃ d, Department.fromCode n = some d) ↔
      (n = 1 ∨ n = 2 ∨ n = 3 ∨ n = 4 ∨ n = 5) := by
  unfold Department.fromCode
  split_ifs <;> simp_all

theorem roleFromCode_some_iff (n : Int) :
    (∃ r, Role.fromCode n = some r) ↔ (n = 1 ∨ n = 2 ∨ n = 3) := by
  unfold Role.fromCode
  split_ifs <;> simp_all

/-- C9: with otherwise-valid fields, Manager construction succeeds exactly
    on raw integer department codes 1..5 (and stores the corresponding
    Department member), while passing a Department member itself — as the
    parameter annotation suggests — raises the invalid-department error;
    likewise Executive succeeds exactly on raw integer role codes 1..3 and
    rejects Role members. -/
theorem claim_c9_enum_codes :
    (∀ n : Int,
      (∃ emp, (managerInit 0 "Jo" "jo@acme-machining.com" 60000
        (PyVal.int n)).fst = Except.ok emp) ↔
      (n = 1 ∨ n = 2 ∨ n = 3 ∨ n = 4 ∨ n = 5)) ∧
    (∀ (n : Int) (d : Department), Department.fromCode n = some d →
      (managerInit 0 "Jo" "jo@acme-machining.com" 60000 (PyVal.int n)).fst =
        .ok (.manager ⟨0, "Jo", "jo@acme-machining.com", IMAGE_PLACEHOLDER⟩
          60000 d)) ∧
    (∀ d : Department,
      (managerInit 0 "Jo" "jo@acme-machining.com" 60000 (PyVal.deptMem d)).fst =
        .error (.invalidDept ("Department." ++ d.ename ++
          " is not a valid department."))) ∧
    (∀ n : Int,
      (∃ emp, (executiveInit 0 "Jo" "jo@acme-machining.com" 60000
        (PyVal.int n)).fst = Except.ok emp) ↔
      (n = 1 ∨ n = 2 ∨ n = 3)) ∧
    (∀ r : Role,
      (executiveInit 0 "Jo" "jo@acme-machining.com" 60000 (PyVal.roleMem r)).fst =
        .error (.invalidRole ("Role." ++ r.ename ++ " is not a valid role."))) := by
  have hsal : salariedInit 0 "Jo" "jo@acme-machining.com" 60000 =
      (Except.ok (⟨0, "Jo", "jo@acme-machining.com", IMAGE_PLACEHOLDER⟩, 60000), 1) := by
    decide
  refine ⟨?_, ?_, ?_, ?_, ?_⟩
  · intro n
    simp only [managerInit, hsal]
    cases hD : Department.fromCode n with
    | none =>
      simp only [hD]
      constructor
      · rintro ⟨emp, hemp⟩
        simp at hemp
      · intro hn
        obtain ⟨d, hd2⟩ := (deptFromCode_some_iff n).mpr hn
        rw [hD] at hd2
        cases hd2
    | some d =>
      simp only [hD]
      constructor
      · intro _
        exact (deptFromCode_some_iff n).mp ⟨d, hD⟩
      · intro _
        exact ⟨.manager ⟨0, "Jo", "jo@acme-machining.com", IMAGE_PLACEHOLDER⟩
          60000 d, rfl⟩
  · intro n d hD
    simp only [managerInit, hsal, hD]
  · intro d
    simp [managerInit, hsal, PyVal.pyStr]
  · intro n
    simp only [executiveInit, hsal]
    cases hR : Role.fromCode n with
    | none =>
      simp only [hR]
      constructor
      · rintro ⟨emp, hemp⟩
        simp at hemp
      · intro hn
        obtain ⟨r, hr2⟩ := (roleFromCode_some_iff n).mpr hn
        rw [hR] at hr2
        cases hr2
    | some r =>
      simp only [hR]
      constructor
      · intro _
        exact (roleFromCode_some_iff n).mp ⟨r, hR⟩
      · intro _
        exact ⟨.executive ⟨0, "Jo", "jo@acme-machining.com", IMAGE_PLACEHOLDER⟩
          60000 r, rfl⟩
  · intro r
    simp [executiveInit, hsal, PyVal.pyStr]

/-- C9 witness: raw code 4 builds a Manager in department R_AND_D, and raw
    code 2 builds an Executive. -/
theorem claim_c9_enum_codes_witness :
    (managerInit 0 "Jo" "jo@acme-machining.com" 60000 (PyVal.int 4)).fst =
      .ok (.manager ⟨0, "Jo", "jo@acme-machining.com", IMAGE_PLACEHOLDER⟩
        60000 .R_AND_D) ∧
    (∃ emp, (executiveInit 0 "Jo" "jo@acme-machining.com" 60000
      (PyVal.int 2)).fst = Except.ok emp) :=
  ⟨claim_c9_enum_codes.2.1 4 .R_AND_D (by decide),
   (claim_c9_enum_codes.2.2.2.1 2).mpr (by decide)⟩

end HRGen
